import Mathlib

/-
Verification of the client-side synchronization and consistency engine of
the SocialAPP mobile client (src/App.js).

The embedding below translates the relevant JavaScript functions into Lean:
network calls become explicit outcome parameters (the value the promise
resolves or rejects with), React state setters become explicit state
passing, and each screen handler becomes a pure state-transition function.
JavaScript strict equality on the values that occur in `likes` arrays
(server-produced numeric user ids and the literal placeholder string
currentUserId) is modelled by the inductive type `LikeId`, on which
decidable equality coincides with the JavaScript comparison.
-/

namespace SocialApp

/-- An entry of a likes array. The server delivers numeric user ids; the
client-side optimistic toggle inserts the literal string currentUserId
(a placeholder, never equal to any numeric id under JS strict equality). -/
inductive LikeId where
  | uid (n : Int)
  | placeholder
deriving DecidableEq, Repr

/-- A post record as held in the per-screen caches. -/
structure Post where
  id : Int
  user_id : Int
  username : String
  content : String
  likes : List LikeId
deriving DecidableEq, Repr

/-- Outcome of one axios GET for a list of posts: the promise resolves with
a payload, or rejects (no response received, or a non-success status). -/
inductive FetchOutcome where
  | ok (payload : List Post)
  | unreachable
  | rejected (status : Nat) (message : String)
deriving DecidableEq, Repr

/-- Outcome of one axios mutation call (like/unlike, follow/unfollow):
resolves with a response whose body carries a message, or rejects. -/
inductive ApiResult where
  | ok (message : String)
  | unreachable
  | rejected (status : Nat) (message : String)
deriving DecidableEq, Repr

/- ------------------------------------------------------------------
   Availability Prober (src/App.js lines 22-47)
   ------------------------------------------------------------------ -/

/-- What one probe of the status endpoint yields: a response whose body has
a status string, or a transport error (the promise rejects). -/
inductive ProbeOutcome where
  | ok (status : String)
  | transportError
deriving DecidableEq, Repr

/-- checkApiStatus: true when the response body says the server is running;
any transport error is caught, logged, and turned into false. -/
def checkApiStatus : ProbeOutcome → Bool
  | ProbeOutcome.ok status => status == "Server is running"
  | ProbeOutcome.transportError => false

/-- Observable trace of one ensureApiIsAwake run: the returned boolean, the
number of checkApiStatus invocations, and the setTimeout delays (ms) in
the order they were awaited. -/
structure ProberRun where
  result : Bool
  probes : Nat
  delaysMs : List Nat
deriving DecidableEq, Repr

def maxAttempts : Nat := 3

/-- The while loop of ensureApiIsAwake. `attempts` is the loop counter of
the source; `remaining` is maxAttempts - attempts, so the source guard
attempts < maxAttempts is exactly remaining > 0. The probe oracle gives
the outcome of the n-th checkApiStatus call of the whole run. -/
def ensureLoop (probe : Nat → ProbeOutcome) : Nat → Nat → Bool → ProberRun
  | _, _, true => { result := true, probes := 0, delaysMs := [] }
  | _, 0, false => { result := false, probes := 0, delaysMs := [] }
  | attempts, remaining + 1, false =>
      let next := checkApiStatus (probe (attempts + 1))
      let r := ensureLoop probe (attempts + 1) remaining next
      { result := r.result, probes := r.probes + 1, delaysMs := 20000 :: r.delaysMs }

/-- ensureApiIsAwake: one initial probe, then the bounded retry loop with a
20000 ms wait before each retry probe. -/
def ensureApiIsAwake (probe : Nat → ProbeOutcome) : ProberRun :=
  let isAwake := checkApiStatus (probe 0)
  let r := ensureLoop probe 0 maxAttempts isAwake
  { result := r.result, probes := r.probes + 1, delaysMs := r.delaysMs }

/- ------------------------------------------------------------------
   Resource Client: the requests actually issued (headers as sent)
   ------------------------------------------------------------------ -/

def API_URL : String := "https://social-network-v7j7.onrender.com/api"

/-- A request as handed to the transport: method, url, and the value of the
Authorization header when one is set on the request config. -/
structure Request where
  method : String
  url : String
  authorization : Option String
deriving DecidableEq, Repr

/-- The template literal Bearer token. AsyncStorage.getItem may yield null,
in which case the JS template produces the string "Bearer null". -/
def bearer (token : Option String) : String := "Bearer " ++ token.getD "null"

def axiosGet (url : String) (auth : Option String) : Request :=
  { method := "get", url := url, authorization := auth }

def axiosPut (url : String) (auth : Option String) : Request :=
  { method := "put", url := url, authorization := auth }

def axiosDelete (url : String) (auth : Option String) : Request :=
  { method := "delete", url := url, authorization := auth }

/-- AllPostsScreen.fetchPosts request (line 202). -/
def fetchPostsRequest (token : Option String) : Request :=
  axiosGet (API_URL ++ "/posts?page=1&limit=10") (some (bearer token))

/-- FollowingScreen.fetchFeed request (line 283). -/
def fetchFeedRequest (token : Option String) : Request :=
  axiosGet (API_URL ++ "/feed?page=1&limit=10") (some (bearer token))

/-- ProfileScreen.fetchUserInfo request (line 369). -/
def fetchMeRequest (token : Option String) : Request :=
  axiosGet (API_URL ++ "/users/me") (some (bearer token))

/-- ProfileScreen.fetchUserPosts request (line 384). -/
def fetchMyPostsRequest (token : Option String) : Request :=
  axiosGet (API_URL ++ "/users/me/posts?page=1&limit=10") (some (bearer token))

/-- UserProfileScreen.fetchUserInfo request (line 448). -/
def fetchUserInfoRequest (token : Option String) (userId : Int) : Request :=
  axiosGet (API_URL ++ "/users/" ++ toString userId) (some (bearer token))

/-- UserProfileScreen.fetchUserPosts request (line 463). -/
def fetchUserPostsRequest (token : Option String) (userId : Int) : Request :=
  axiosGet (API_URL ++ "/users/" ++ toString userId ++ "/posts?page=1&limit=10")
    (some (bearer token))

/-- handleLike request, identical on all three screens (lines 216, 297,
492): axios.put(url, data, config) with the headers in the config. -/
def likeRequest (token : Option String) (postId : Int) : Request :=
  axiosPut (API_URL ++ "/posts/" ++ toString postId ++ "/like") (some (bearer token))

/-- UserProfileScreen.handleFollow request (lines 477-480). The source calls
axios[method](url, obj1, obj2) with obj1 the empty object and obj2 the
object holding the Authorization header. For method put the signature is
put(url, data, config), so obj2 is the config and the header is attached.
For method delete the signature is delete(url, config): obj1 (the empty
object, carrying no headers) is the config, and obj2 is an extra argument
that JavaScript silently discards, so no Authorization header is set. -/
def followRequest (token : Option String) (userId : Int) (is_following : Bool) : Request :=
  let url := API_URL ++ "/users/" ++ toString userId ++ "/follow"
  if is_following then
    axiosDelete url none
  else
    axiosPut url (some (bearer token))

/- ------------------------------------------------------------------
   Feed Cache and Mutation Reconciler
   ------------------------------------------------------------------ -/

/-- AllPostsScreen state: the posts cache and the busy flag. The screen has
no error state for the read path; fetch failures are only logged. -/
structure AllPostsState where
  posts : List Post
  isLoading : Bool
deriving DecidableEq, Repr

/-- FollowingScreen state: the feed cache and the busy flag. -/
structure FollowingState where
  feed : List Post
  isLoading : Bool
deriving DecidableEq, Repr

/-- AllPostsScreen.fetchPosts (lines 198-211): setIsLoading(true), then on
resolve setPosts(payload), on reject only a console log; the finally
block sets isLoading back to false on every path. -/
def fetchPosts (outcome : FetchOutcome) (s : AllPostsState) : AllPostsState :=
  match outcome with
  | FetchOutcome.ok payload => { posts := payload, isLoading := false }
  | FetchOutcome.unreachable => { posts := s.posts, isLoading := false }
  | FetchOutcome.rejected _ _ => { posts := s.posts, isLoading := false }

/-- FollowingScreen.fetchFeed (lines 279-292), same shape as fetchPosts. -/
def fetchFeed (outcome : FetchOutcome) (s : FollowingState) : FollowingState :=
  match outcome with
  | FetchOutcome.ok payload => { feed := payload, isLoading := false }
  | FetchOutcome.unreachable => { feed := s.feed, isLoading := false }
  | FetchOutcome.rejected _ _ => { feed := s.feed, isLoading := false }

/-- The success test shared by every handleLike (lines 219, 300, 495):
response.data.message strictly equals one of the two recognized texts. -/
def likeMessageRecognized (message : String) : Bool :=
  message == "Post liked." || message == "Post unliked."

/-- Whether a mutation outcome passes the handleLike success test: the call
resolved and its message is recognized. -/
def likeConfirmed : ApiResult → Bool
  | ApiResult.ok message => likeMessageRecognized message
  | ApiResult.unreachable => false
  | ApiResult.rejected _ _ => false

/-- The optimistic toggle on one likes array (lines 305-308): if the
placeholder is present, filter it out; otherwise append it. -/
def toggleLikes (likes : List LikeId) : List LikeId :=
  if LikeId.placeholder ∈ likes then
    likes.filter (fun x => decide (x ≠ LikeId.placeholder))
  else
    likes ++ [LikeId.placeholder]

/-- The map over the feed in FollowingScreen.handleLike (lines 302-310):
toggle the likes of the post with the given id, keep every other post. -/
def applyLikePatch (postId : Int) (feed : List Post) : List Post :=
  feed.map (fun post =>
    if post.id = postId then { post with likes := toggleLikes post.likes } else post)

/-- FollowingScreen.handleLike (lines 294-315): on a resolved response with
a recognized message, patch the feed in place; on any other outcome the
catch or the failed test leaves the feed untouched (only a log). -/
def handleLikeFollowing (resp : ApiResult) (postId : Int) (feed : List Post) : List Post :=
  match resp with
  | ApiResult.ok message =>
      if likeMessageRecognized message then applyLikePatch postId feed else feed
  | ApiResult.unreachable => feed
  | ApiResult.rejected _ _ => feed

/-- AllPostsScreen.handleLike (lines 213-225): on a recognized success
message it calls fetchPosts (authoritative refetch, with its own
outcome); on any other outcome the state is untouched. -/
def handleLikeAllPosts (resp : ApiResult) (refetch : FetchOutcome)
    (s : AllPostsState) : AllPostsState :=
  match resp with
  | ApiResult.ok message =>
      if likeMessageRecognized message then fetchPosts refetch s else s
  | ApiResult.unreachable => s
  | ApiResult.rejected _ _ => s

/-- UserProfileScreen.handleLike (lines 489-501), projected onto the
userPosts cache: refetch on recognized success, otherwise untouched. -/
def handleLikeUserProfile (resp : ApiResult) (refetched userPosts : List Post) : List Post :=
  match resp with
  | ApiResult.ok message =>
      if likeMessageRecognized message then refetched else userPosts
  | ApiResult.unreachable => userPosts
  | ApiResult.rejected _ _ => userPosts

/-- UserProfileScreen.handleFollow success test (line 481): JavaScript
String.prototype.includes is substring containment. -/
def jsIncludes (s pat : String) : Bool := decide (pat.data <:+: s.data)

/-- The two-disjunct condition of line 481. -/
def followSuccess (message : String) : Bool :=
  jsIncludes message "followed" || jsIncludes message "unfollowed"

/- ------------------------------------------------------------------
   Concrete fixtures for the scenario claims
   ------------------------------------------------------------------ -/

def postOne : Post :=
  { id := 1, user_id := 10, username := "alice", content := "first post", likes := [] }

def postTwo : Post :=
  { id := 2, user_id := 11, username := "bob", content := "second post",
    likes := [LikeId.uid 5] }

/-- The two-post global feed of the scenario in the spec. -/
def feedC3 : List Post := [postOne, postTwo]

/-- Frame relation between an original post and its image under the patch:
unrelated posts are untouched and only the likes field of the targeted
post may differ. -/
def likeFrame (postId : Int) (p q : Post) : Prop :=
  (p.id ≠ postId → q = p) ∧
  q.id = p.id ∧ q.user_id = p.user_id ∧ q.username = p.username ∧ q.content = p.content

/-- Relation stating that a post's likes came back to the original
membership and size. -/
def likesRestored (p q : Post) : Prop :=
  (∀ x, x ∈ q.likes ↔ x ∈ p.likes) ∧ q.likes.length = p.likes.length

/- ------------------------------------------------------------------
   Theorems
   ------------------------------------------------------------------ -/

/-- The loop result only depends on the probe oracle through the boolean
that checkApiStatus extracts from each outcome. -/
theorem ensureLoop_congr {p q : Nat → ProbeOutcome}
    (h : ∀ n, checkApiStatus (p n) = checkApiStatus (q n)) :
    ∀ (remaining attempts : Nat) (isAwake : Bool),
      ensureLoop p attempts remaining isAwake = ensureLoop q attempts remaining isAwake := by
  intro remaining
  induction remaining with
  | zero =>
      intro attempts isAwake
      cases isAwake <;> rfl
  | succ m ih =>
      intro attempts isAwake
      cases isAwake with
      | true => rfl
      | false =>
          simp only [ensureLoop]
          rw [h (attempts + 1), ih]


/-- C9: checkApiStatus maps a transport failure to false (same as any
not-ready status string), ensureApiIsAwake cannot distinguish a transport
failure from a not-ready response, and a run whose first probe fails in
transport still continues the retry loop and can end with true. -/
theorem probe_error_not_escalated :
    (checkApiStatus ProbeOutcome.transportError = false) ∧
    (∀ s, s ≠ "Server is running" → checkApiStatus (ProbeOutcome.ok s) = false) ∧
    (∀ p q : Nat → ProbeOutcome, (∀ n, checkApiStatus (p n) = checkApiStatus (q n)) →
      ensureApiIsAwake p = ensureApiIsAwake q) ∧
    (ensureApiIsAwake (fun n =>
        if n = 0 then ProbeOutcome.transportError
        else ProbeOutcome.ok "Server is running")).result = true := by
  refine ⟨rfl, ?_, ?_, ?_⟩
  · intro s hs
    simpa [checkApiStatus] using hs
  · intro p q h
    simp only [ensureApiIsAwake]
    rw [h 0, ensureLoop_congr h]
  · rfl

/-- C9 witness: the congruence and the status-string parts applied at
concrete inputs. -/
theorem probe_error_not_escalated_witness :
    checkApiStatus (ProbeOutcome.ok "starting") = false ∧
    ensureApiIsAwake (fun _ => ProbeOutcome.transportError) =
      ensureApiIsAwake (fun _ => ProbeOutcome.ok "starting") :=
  ⟨probe_error_not_escalated.2.1 "starting" (by decide),
   probe_error_not_escalated.2.2.1 (fun _ => ProbeOutcome.transportError)
     (fun _ => ProbeOutcome.ok "starting") (fun _ => rfl)⟩

/-- C2 counterexample: with a service that never reports ready, the run
returns false but performs 4 probes (the initial one plus the 3 retry
probes of the loop), not 3 as the claim states. -/
theorem prober_three_probes_counterexample :
    (ensureApiIsAwake (fun _ => ProbeOutcome.ok "asleep")).result = false ∧
    (ensureApiIsAwake (fun _ => ProbeOutcome.ok "asleep")).probes = 4 ∧
    ((ensureApiIsAwake (fun _ => ProbeOutcome.ok "asleep")).probes == 3) = false := by
  exact ⟨rfl, rfl, rfl⟩

/-- C2 amended: a ready first probe yields true immediately with a single
probe, no retries and no delays; a service that never reports ready yields
false after exactly 4 probes (the initial probe plus 3 retries), each
retry preceded by a 20000 ms delay. -/
theorem prober_retry_budget (probe : Nat → ProbeOutcome) :
    (checkApiStatus (probe 0) = true →
      ensureApiIsAwake probe = { result := true, probes := 1, delaysMs := [] }) ∧
    ((∀ n, checkApiStatus (probe n) = false) →
      ensureApiIsAwake probe =
        { result := false, probes := 4, delaysMs := [20000, 20000, 20000] }) := by
  constructor
  · intro h
    simp only [ensureApiIsAwake, h]
    rfl
  · intro h
    simp only [ensureApiIsAwake, maxAttempts, h 0]
    simp only [ensureLoop, h 1, h 2, h 3]

/-- C2 amended witness: the exhausted-budget branch evaluated on an oracle
that always fails in transport. -/
theorem prober_retry_budget_witness :
    ensureApiIsAwake (fun _ => ProbeOutcome.transportError) =
      { result := false, probes := 4, delaysMs := [20000, 20000, 20000] } :=
  (prober_retry_budget (fun _ => ProbeOutcome.transportError)).2 (fun _ => rfl)

/-- C3: on the two-post feed, a confirmed like of post 1 via the optimistic
strategy appends the literal placeholder to post 1 and leaves post 2
unchanged; the placeholder differs from every numeric user id, so the
authenticated user's id is never the value added. -/
theorem optimistic_like_adds_placeholder :
    handleLikeFollowing (ApiResult.ok "Post liked.") 1 feedC3 =
      [{ postOne with likes := [LikeId.placeholder] }, postTwo] ∧
    ∀ n : Int, (LikeId.uid n == LikeId.placeholder) = false := by
  exact ⟨by decide, fun n => rfl⟩

/-- C4: with a stored credential, every fetch and the like mutation attach
the bearer header, and so does the follow PUT; but the unfollow DELETE is
sent with no Authorization header, because the source passes the headers
object in the discarded third argument of axios.delete. -/
theorem unfollow_request_lacks_bearer :
    (followRequest (some "tok") 42 true).authorization = none ∧
    (followRequest (some "tok") 42 false).authorization = some "Bearer tok" ∧
    (fetchPostsRequest (some "tok")).authorization = some "Bearer tok" ∧
    (fetchFeedRequest (some "tok")).authorization = some "Bearer tok" ∧
    (likeRequest (some "tok") 7).authorization = some "Bearer tok" ∧
    (fetchMeRequest (some "tok")).authorization = some "Bearer tok" ∧
    (fetchMyPostsRequest (some "tok")).authorization = some "Bearer tok" ∧
    (fetchUserInfoRequest (some "tok") 42).authorization = some "Bearer tok" ∧
    (fetchUserPostsRequest (some "tok") 42).authorization = some "Bearer tok" := by
  refine ⟨rfl, ?_, ?_, ?_, ?_, ?_, ?_, ?_, ?_⟩ <;> decide

/-- C1: whenever the like mutation did not come back with a recognized
success message (it rejected, was unreachable, or resolved with any other
message), every screen's handler leaves its cache and busy flag exactly
as they were; so a local change can only happen after a recognized
success response. -/
theorem confirm_then_apply (resp : ApiResult) (postId : Int) (refetch : FetchOutcome)
    (s : AllPostsState) (feed refetched userPosts : List Post)
    (h : likeConfirmed resp = false) :
    handleLikeAllPosts resp refetch s = s ∧
    handleLikeFollowing resp postId feed = feed ∧
    handleLikeUserProfile resp refetched userPosts = userPosts := by
  cases resp with
  | ok message =>
      have hm : likeMessageRecognized message = false := h
      simp [handleLikeAllPosts, handleLikeFollowing, handleLikeUserProfile, hm]
  | unreachable =>
      exact ⟨rfl, rfl, rfl⟩
  | rejected status message =>
      exact ⟨rfl, rfl, rfl⟩

/-- C1 witness: a rejected like mutation at concrete inputs changes
nothing on any screen. -/
theorem confirm_then_apply_witness :
    handleLikeAllPosts (ApiResult.rejected 500 "Server error") (FetchOutcome.ok [])
        { posts := [postOne], isLoading := false } =
      { posts := [postOne], isLoading := false } ∧
    handleLikeFollowing (ApiResult.rejected 500 "Server error") 1 [postOne] = [postOne] ∧
    handleLikeUserProfile (ApiResult.rejected 500 "Server error") [] [postTwo] = [postTwo] :=
  confirm_then_apply (ApiResult.rejected 500 "Server error") 1 (FetchOutcome.ok [])
    { posts := [postOne], isLoading := false } [postOne] [] [postTwo] (by decide)

/-- C8: a fetch that fails (unreachable or rejected) leaves the previously
cached posts of both read screens in place; the resulting state is the old
cache with the busy flag back at false, and the screens hold no error
state, so nothing user-facing is surfaced. -/
theorem fetch_failure_keeps_cache (outcome : FetchOutcome)
    (h : outcome = FetchOutcome.unreachable ∨
      ∃ status message, outcome = FetchOutcome.rejected status message)
    (s : AllPostsState) (t : FollowingState) :
    fetchPosts outcome s = { posts := s.posts, isLoading := false } ∧
    fetchFeed outcome t = { feed := t.feed, isLoading := false } := by
  rcases h with h | ⟨status, message, h⟩ <;> subst h <;> exact ⟨rfl, rfl⟩

/-- C8 witness: an unreachable feed fetch at concrete states. -/
theorem fetch_failure_keeps_cache_witness :
    fetchPosts FetchOutcome.unreachable { posts := [postOne], isLoading := true } =
      { posts := [postOne], isLoading := false } ∧
    fetchFeed FetchOutcome.unreachable { feed := [postTwo], isLoading := true } =
      { feed := [postTwo], isLoading := false } :=
  fetch_failure_keeps_cache FetchOutcome.unreachable (Or.inl rfl)
    { posts := [postOne], isLoading := true } { feed := [postTwo], isLoading := true }

/-- Pointwise frame facts for the optimistic patch, by induction on the
feed. -/
theorem applyLikePatch_frame (postId : Int) :
    ∀ feed : List Post, List.Forall₂ (likeFrame postId) feed (applyLikePatch postId feed)
  | [] => List.Forall₂.nil
  | p :: rest => by
      refine List.Forall₂.cons ?_ (applyLikePatch_frame postId rest)
      show likeFrame postId p
        (if p.id = postId then { p with likes := toggleLikes p.likes } else p)
      by_cases hp : p.id = postId
      · rw [if_pos hp]
        exact ⟨fun hne => absurd hp hne, rfl, rfl, rfl, rfl⟩
      · rw [if_neg hp]
        exact ⟨fun _ => rfl, rfl, rfl, rfl, rfl⟩

/-- C5: a confirmed like mutation on the following feed relates old and new
caches pointwise: same number and order of entries, entries with another
id unchanged, and the targeted entry equal on every field except likes. -/
theorem patch_frame (resp : ApiResult) (postId : Int) (feed : List Post)
    (h : likeConfirmed resp = true) :
    List.Forall₂ (likeFrame postId) feed (handleLikeFollowing resp postId feed) := by
  cases resp with
  | ok message =>
      have hm : likeMessageRecognized message = true := h
      simp only [handleLikeFollowing, hm, if_true]
      exact applyLikePatch_frame postId feed
  | unreachable => simp [likeConfirmed] at h
  | rejected status message => simp [likeConfirmed] at h

/-- C5 witness: the frame relation on the two-post feed after a confirmed
like of post 1. -/
theorem patch_frame_witness :
    List.Forall₂ (likeFrame 1) feedC3
      (handleLikeFollowing (ApiResult.ok "Post liked.") 1 feedC3) :=
  patch_frame (ApiResult.ok "Post liked.") 1 feedC3 (by decide)

/-- C6: patching a post id that occurs nowhere in the cache is a no-op. -/
theorem patch_absent_noop (postId : Int) :
    ∀ feed : List Post, (∀ p ∈ feed, p.id ≠ postId) → applyLikePatch postId feed = feed
  | [], _ => rfl
  | p :: rest, h => by
      have hp : p.id ≠ postId := h p (List.mem_cons_self p rest)
      have ih := patch_absent_noop postId rest (fun q hq => h q (List.mem_cons_of_mem p hq))
      simp only [applyLikePatch, List.map_cons] at ih ⊢
      rw [if_neg hp, ih]

/-- C6 witness: patching the absent id 99 on the two-post feed. -/
theorem patch_absent_noop_witness : applyLikePatch 99 feedC3 = feedC3 :=
  patch_absent_noop 99 feedC3 (by decide)

/-- Filtering one value out of a list removes exactly its occurrences. -/
theorem length_filter_ne (a : LikeId) :
    ∀ l : List LikeId,
      (l.filter (fun x => decide (x ≠ a))).length + l.count a = l.length
  | [] => rfl
  | x :: l => by
      have ih := length_filter_ne a l
      by_cases hx : x = a
      · subst hx
        have hp : decide (x ≠ x) = false := by simp
        simp only [List.filter_cons, hp, Bool.false_eq_true, if_false,
          List.count_cons_self, List.length_cons]
        omega
      · have hp : decide (x ≠ a) = true := by simp [hx]
        have hc : (x :: l).count a = l.count a := by
          simp [List.count_cons, hx]
        simp only [List.filter_cons, hp, if_true, hc, List.length_cons]
        omega

/-- Applying the optimistic toggle twice when the placeholder is absent
gives back exactly the original likes array. -/
theorem toggleLikes_twice_of_not_mem (likes : List LikeId)
    (hmem : LikeId.placeholder ∉ likes) :
    toggleLikes (toggleLikes likes) = likes := by
  have h1 : toggleLikes likes = likes ++ [LikeId.placeholder] := if_neg hmem
  have h2 : LikeId.placeholder ∈ likes ++ [LikeId.placeholder] := by simp
  rw [h1, toggleLikes, if_pos h2, List.filter_append]
  have h3 : likes.filter (fun x => decide (x ≠ LikeId.placeholder)) = likes := by
    refine List.filter_eq_self.mpr (fun a ha => ?_)
    have hne : ¬ a = LikeId.placeholder := fun hap => hmem (hap ▸ ha)
    simpa using hne
  have h4 : List.filter (fun x => decide (x ≠ LikeId.placeholder)) [LikeId.placeholder] = [] :=
    rfl
  rw [h4, List.append_nil, h3]

/-- Applying the optimistic toggle twice when the placeholder is present
moves it to the end of the array, past all other entries. -/
theorem toggleLikes_twice_of_mem (likes : List LikeId)
    (hmem : LikeId.placeholder ∈ likes) :
    toggleLikes (toggleLikes likes) =
      likes.filter (fun x => decide (x ≠ LikeId.placeholder)) ++ [LikeId.placeholder] := by
  have h1 : toggleLikes likes = likes.filter (fun x => decide (x ≠ LikeId.placeholder)) :=
    if_pos hmem
  have h2 : LikeId.placeholder ∉
      likes.filter (fun x => decide (x ≠ LikeId.placeholder)) := by
    simp [List.mem_filter]
  rw [h1, toggleLikes, if_neg h2]

/-- The double toggle preserves membership of every entry. -/
theorem toggleLikes_twice_mem (likes : List LikeId) (x : LikeId) :
    x ∈ toggleLikes (toggleLikes likes) ↔ x ∈ likes := by
  by_cases hmem : LikeId.placeholder ∈ likes
  · rw [toggleLikes_twice_of_mem likes hmem]
    simp only [List.mem_append, List.mem_filter, List.mem_singleton, decide_eq_true_eq,
      ne_eq]
    constructor
    · rintro (⟨hx, _⟩ | hx)
      · exact hx
      · rw [hx]; exact hmem
    · intro hx
      by_cases hxp : x = LikeId.placeholder
      · exact Or.inr hxp
      · exact Or.inl ⟨hx, hxp⟩
  · rw [toggleLikes_twice_of_not_mem likes hmem]

/-- The double toggle preserves the length when the likes array holds the
placeholder at most once. -/
theorem toggleLikes_twice_length (likes : List LikeId)
    (h : likes.count LikeId.placeholder ≤ 1) :
    (toggleLikes (toggleLikes likes)).length = likes.length := by
  by_cases hmem : LikeId.placeholder ∈ likes
  · rw [toggleLikes_twice_of_mem likes hmem]
    have hcount : likes.count LikeId.placeholder = 1 := by
      have := List.count_pos_iff.mpr hmem
      omega
    have hlen := length_filter_ne LikeId.placeholder likes
    simp only [List.length_append, List.length_cons, List.length_nil]
    omega
  · rw [toggleLikes_twice_of_not_mem likes hmem]

/-- A resolved like call with a recognized message applies the patch. -/
theorem handleLikeFollowing_confirmed (message : String) (postId : Int) (feed : List Post)
    (h : likeMessageRecognized message = true) :
    handleLikeFollowing (ApiResult.ok message) postId feed = applyLikePatch postId feed := by
  simp [handleLikeFollowing, h]

/-- Two confirmed patches on the same post restore membership and size of
every likes array, by induction on the feed. -/
theorem applyLikePatch_twice_restores (postId : Int) :
    ∀ feed : List Post, (∀ p ∈ feed, p.likes.count LikeId.placeholder ≤ 1) →
      List.Forall₂ likesRestored feed (applyLikePatch postId (applyLikePatch postId feed))
  | [], _ => List.Forall₂.nil
  | p :: rest, h => by
      have hhead := h p (List.mem_cons_self p rest)
      have htail := applyLikePatch_twice_restores postId rest
        (fun q hq => h q (List.mem_cons_of_mem p hq))
      simp only [applyLikePatch, List.map_cons] at htail ⊢
      refine List.Forall₂.cons ?_ htail
      by_cases hp : p.id = postId
      · simp only [hp, if_true, eq_self_iff_true]
        exact ⟨fun x => toggleLikes_twice_mem p.likes x, toggleLikes_twice_length p.likes hhead⟩
      · simp only [if_neg hp]
        exact ⟨fun x => Iff.rfl, rfl⟩

/-- C7: liking the same post twice, both calls confirmed by the server,
returns every likes array of the feed to its original membership and
original size, provided each likes array held the placeholder at most
once beforehand (the data-model invariant that likes is a set). -/
theorem like_toggle_roundtrip (postId : Int) (feed : List Post)
    (h : ∀ p ∈ feed, p.likes.count LikeId.placeholder ≤ 1) :
    List.Forall₂ likesRestored feed
      (handleLikeFollowing (ApiResult.ok "Post unliked.") postId
        (handleLikeFollowing (ApiResult.ok "Post liked.") postId feed)) := by
  rw [handleLikeFollowing_confirmed _ _ _ (by decide),
    handleLikeFollowing_confirmed _ _ _ (by decide)]
  exact applyLikePatch_twice_restores postId feed h

/-- C7 witness: the round trip on the two-post feed at post 1. -/
theorem like_toggle_roundtrip_witness :
    List.Forall₂ likesRestored feedC3
      (handleLikeFollowing (ApiResult.ok "Post unliked.") 1
        (handleLikeFollowing (ApiResult.ok "Post liked.") 1 feedC3)) :=
  like_toggle_roundtrip 1 feedC3 (by decide)

/-- C10: the second disjunct of the handleFollow success test is redundant:
any string containing unfollowed also contains followed, so the
two-disjunct predicate equals the single containment check. -/
theorem follow_success_redundant_disjunct (message : String) :
    followSuccess message = jsIncludes message "followed" := by
  unfold followSuccess
  cases hf : jsIncludes message "followed" with
  | true => simp
  | false =>
      simp only [Bool.false_or]
      cases hu : jsIncludes message "unfollowed" with
      | false => rfl
      | true =>
          exfalso
          have h1 : "unfollowed".data <:+: message.data := by
            simpa [jsIncludes] using hu
          have h2 : "followed".data <:+: "unfollowed".data := by decide
          have h3 : jsIncludes message "followed" = true := by
            simp [jsIncludes]
            exact h2.trans h1
          rw [hf] at h3
          exact Bool.noConfusion h3

end SocialApp
